import Mathlib

set_option autoImplicit false

namespace Song

/-! Shallow embedding of the playback session core of the `song` repository:
the zustand audio store (`useAudioStore`), the `FullPlayer` stream-URL fetch
effect, and the YouTube audio info / stream API routes. -/

/-- `AudioStatus` from `src/constants/enums.ts`. -/
inductive AudioStatus where
  | idle
  | loading
  | ready
  | playing
  | paused
  | error
deriving DecidableEq, Repr

/-- `RepeatMode` from `src/constants/enums.ts`. -/
inductive RepeatMode where
  | off
  | all
  | one
deriving DecidableEq, Repr

/-- Channel object of the `Audio` model (`AudioSchema.channel`): optional id,
name, optional thumbnail. -/
structure Channel where
  id : Option String
  name : String
  thumbnail : Option String
deriving DecidableEq, Repr

/-- The `Audio` model (`AudioSchema`): the track value stored in the player
state and in the queue. -/
structure Audio where
  id : String
  title : String
  description : String
  duration : Nat
  viewCount : Nat
  published : Option String
  thumbnail : String
  channel : Channel
deriving DecidableEq, Repr

/-- Data returned by `fetchAudioInfo` as consumed by `setAudio`; the fields
that `setAudio` guards with `|| default` or a conditional are optional here. -/
structure AudioInfo where
  id : String
  title : String
  description : Option String
  duration : Option Nat
  viewCount : Option Nat
  published : Option String
  thumbnail : String
  channel : Option Channel
deriving DecidableEq, Repr

/-- `AudioPlayback` from the store types: current time, duration, speed.
Numbers are modelled as rationals. -/
structure AudioPlayback where
  currentTime : Rat
  duration : Rat
  speed : Rat
deriving DecidableEq, Repr

/-- The state part of `AudioStore` (`useAudioStore`). `currentIndex` is an
integer because the store uses `-1` as the sentinel for "not in queue". -/
structure AudioState where
  audio : Option Audio
  playback : AudioPlayback
  status : AudioStatus
  showFullPlayer : Bool
  repeatMode : RepeatMode
  shuffle : Bool
  liked : Bool
  queue : List Audio
  currentIndex : Int
deriving DecidableEq, Repr

/-- The initial store state from `create<AudioStore>(...)`. -/
def initialState : AudioState :=
  { audio := none
    playback := { currentTime := 0, duration := 0, speed := 1 }
    status := AudioStatus.idle
    showFullPlayer := false
    repeatMode := RepeatMode.off
    shuffle := false
    liked := false
    queue := []
    currentIndex := -1 }

/-- JavaScript array indexing `queue[i]`: `undefined` (here `none`) outside
the valid range, the element otherwise. -/
def listGet (q : List Audio) (i : Int) : Option Audio :=
  if 0 ≤ i then q.get? i.toNat else none

/-- The `newAudio` object built by `setAudio` from the fetched data:
`description || ''`, `duration || 0`, `viewCount || 0`, and
`channel ? {...} : { name: '' }`. -/
def newAudioOfInfo (d : AudioInfo) : Audio :=
  { id := d.id
    title := d.title
    description := d.description.getD ""
    duration := d.duration.getD 0
    viewCount := d.viewCount.getD 0
    published := d.published
    thumbnail := d.thumbnail
    channel :=
      match d.channel with
      | some c => { id := c.id, name := c.name, thumbnail := c.thumbnail }
      | none => { id := none, name := "", thumbnail := none } }

/-- `setAudio(audioId)`: sets status to Loading, awaits `fetchAudioInfo`, and
on success stores the resolved track with status Playing; on failure sets
status Error. The fetch outcome is passed in explicitly. -/
def setAudio (result : Except String AudioInfo) (s : AudioState) : AudioState :=
  let loadingState := { s with status := AudioStatus.loading }
  match result with
  | Except.ok d =>
      { loadingState with audio := some (newAudioOfInfo d), status := AudioStatus.playing }
  | Except.error _ =>
      { loadingState with status := AudioStatus.error }

/-- `clearAudio()`: clears the track, resets status to Idle and playback to
its initial values. -/
def clearAudio (s : AudioState) : AudioState :=
  { s with audio := none
           status := AudioStatus.idle
           playback := { currentTime := 0, duration := 0, speed := 1 } }

/-- `setStatus(status)`. -/
def setStatus (st : AudioStatus) (s : AudioState) : AudioState :=
  { s with status := st }

/-- `togglePlay()`: `status === PLAYING ? PAUSED : PLAYING`. -/
def togglePlay (s : AudioState) : AudioState :=
  { s with status :=
      if s.status = AudioStatus.playing then AudioStatus.paused else AudioStatus.playing }

/-- `setShowFullPlayer(show)`. -/
def setShowFullPlayer (b : Bool) (s : AudioState) : AudioState :=
  { s with showFullPlayer := b }

/-- `updatePlaybackTime(time)`. -/
def updatePlaybackTime (t : Rat) (s : AudioState) : AudioState :=
  { s with playback := { s.playback with currentTime := t } }

/-- `updatePlaybackDuration(duration)`. -/
def updatePlaybackDuration (d : Rat) (s : AudioState) : AudioState :=
  { s with playback := { s.playback with duration := d } }

/-- `updatePlaybackSpeed(speed)`: stores the given speed into `playback`. -/
def updatePlaybackSpeed (sp : Rat) (s : AudioState) : AudioState :=
  { s with playback := { s.playback with speed := sp } }

/-- `toggleRepeatMode()`: cycles OFF -> ALL -> ONE -> OFF (the `modes` array
indexed by `(indexOf + 1) % 3`). -/
def toggleRepeatMode (s : AudioState) : AudioState :=
  { s with repeatMode :=
      match s.repeatMode with
      | RepeatMode.off => RepeatMode.all
      | RepeatMode.all => RepeatMode.one
      | RepeatMode.one => RepeatMode.off }

/-- `toggleShuffle()`. -/
def toggleShuffle (s : AudioState) : AudioState :=
  { s with shuffle := !s.shuffle }

/-- `toggleLike()`. -/
def toggleLike (s : AudioState) : AudioState :=
  { s with liked := !s.liked }

/-- Index selection of `playNext`: the shuffle branch uses the supplied
random index, otherwise `currentIndex + 1` with wrap-to-0 on overflow only
under repeat ALL; `none` models the early `return`. -/
def playNextIndex (rand : Nat) (s : AudioState) : Option Int :=
  if s.shuffle then some (rand : Int)
  else if (s.queue.length : Int) ≤ s.currentIndex + 1 then
    if s.repeatMode = RepeatMode.all then some 0 else none
  else some (s.currentIndex + 1)

/-- `playNext()`: empty queue clears the track; otherwise computes the next
index, early-returns when it equals the current index, else moves the cursor
and loads `queue[nextIndex]`. The `rand` argument stands for
`Math.floor(Math.random() * queue.length)`. -/
def playNext (rand : Nat) (s : AudioState) : AudioState :=
  if s.queue.length = 0 then { s with audio := none }
  else
    match playNextIndex rand s with
    | none => s
    | some nextIndex =>
        if nextIndex = s.currentIndex then s
        else { s with currentIndex := nextIndex, audio := listGet s.queue nextIndex }

/-- Index selection of `playPrevious`: shuffle branch uses the supplied
random index, otherwise `currentIndex - 1` with wrap-to-end on underflow only
under repeat ALL; `none` models the early `return`. -/
def playPrevIndex (rand : Nat) (s : AudioState) : Option Int :=
  if s.shuffle then some (rand : Int)
  else if s.currentIndex - 1 < 0 then
    if s.repeatMode = RepeatMode.all then some ((s.queue.length : Int) - 1) else none
  else some (s.currentIndex - 1)

/-- `playPrevious()`: when `playback.currentTime > 3` only resets the time to
0 and returns; else empty queue clears the track; otherwise moves the cursor
to the previous index and loads `queue[prevIndex]`. -/
def playPrevious (rand : Nat) (s : AudioState) : AudioState :=
  if 3 < s.playback.currentTime then
    { s with playback := { s.playback with currentTime := 0 } }
  else if s.queue.length = 0 then { s with audio := none }
  else
    match playPrevIndex rand s with
    | none => s
    | some prevIndex =>
        { s with currentIndex := prevIndex, audio := listGet s.queue prevIndex }

/-- `clearQueue()`: `set({ queue: [], currentIndex: -1, audio: null })`
(zustand `set` merges, so every other field is untouched). -/
def clearQueue (s : AudioState) : AudioState :=
  { s with queue := [], currentIndex := -1, audio := none }

/-- One action of the store interface (`AudioStore`), with the data each
action consumes supplied as a parameter. -/
inductive StoreAction where
  | setAudio (result : Except String AudioInfo)
  | clearAudio
  | setStatus (st : AudioStatus)
  | togglePlay
  | setShowFullPlayer (b : Bool)
  | updatePlaybackTime (t : Rat)
  | updatePlaybackDuration (d : Rat)
  | updatePlaybackSpeed (sp : Rat)
  | toggleRepeatMode
  | toggleShuffle
  | toggleLike
  | playNext (rand : Nat)
  | playPrevious (rand : Nat)
  | clearQueue

/-- Interpretation of a store action as a state transformer. -/
def applyAction (s : AudioState) : StoreAction → AudioState
  | StoreAction.setAudio r => setAudio r s
  | StoreAction.clearAudio => clearAudio s
  | StoreAction.setStatus st => setStatus st s
  | StoreAction.togglePlay => togglePlay s
  | StoreAction.setShowFullPlayer b => setShowFullPlayer b s
  | StoreAction.updatePlaybackTime t => updatePlaybackTime t s
  | StoreAction.updatePlaybackDuration d => updatePlaybackDuration d s
  | StoreAction.updatePlaybackSpeed sp => updatePlaybackSpeed sp s
  | StoreAction.toggleRepeatMode => toggleRepeatMode s
  | StoreAction.toggleShuffle => toggleShuffle s
  | StoreAction.toggleLike => toggleLike s
  | StoreAction.playNext rand => playNext rand s
  | StoreAction.playPrevious rand => playPrevious rand s
  | StoreAction.clearQueue => clearQueue s

/-- Running a sequence of store actions from the initial state. -/
def runActions (acts : List StoreAction) : AudioState :=
  acts.foldl applyAction initialState

/-- Iterating `playNext` with a fixed random input. -/
def iterateNext (rand : Nat) : Nat → AudioState → AudioState
  | 0, s => s
  | n + 1, s => iterateNext rand n (playNext rand s)

/-! The `FullPlayer` stream-URL fetch effect: on every change of `audioId`
(the effect dependency) a fetch of the stream URL starts when the id is
non-null; when a started fetch settles, its handler runs
`setStreamUrl(data.url); setError(null)` on success and `setError(msg)` on
failure — the handler does not compare the fetch's id with the current
`audioId` and the effect has no cleanup, so the handler runs as written
whenever the promise settles. -/

/-- Observable component state of the fetch effect: the current `audioId`
prop, the ids of fetches started but not yet settled, the `streamUrl` state
and the `error` state. -/
structure PlayerFetchState where
  audioId : Option String
  pending : List String
  streamUrl : Option String
  error : Option String
deriving DecidableEq, Repr

/-- Events of the fetch effect: the `audioId` prop changes (current track
changes), or a started fetch settles with a URL or with a failure. -/
inductive PlayerEvent where
  | changeTrack (id : Option String)
  | resolveFetch (id : String) (url : String)
  | rejectFetch (id : String)
deriving DecidableEq, Repr

/-- Initial component state: no track, no fetch, no stream URL. -/
def playerInit : PlayerFetchState :=
  { audioId := none, pending := [], streamUrl := none, error := none }

/-- One step of the fetch effect. Settling events of fetches that were never
started are ignored (they cannot happen); a settling event of a started
fetch applies its handler unconditionally, exactly as the source does. -/
def playerStep (s : PlayerFetchState) : PlayerEvent → PlayerFetchState
  | PlayerEvent.changeTrack id =>
      { s with audioId := id
               pending :=
                 match id with
                 | some i => i :: s.pending
                 | none => s.pending }
  | PlayerEvent.resolveFetch i url =>
      if i ∈ s.pending then
        { s with pending := s.pending.erase i, streamUrl := some url, error := none }
      else s
  | PlayerEvent.rejectFetch i =>
      if i ∈ s.pending then
        { s with pending := s.pending.erase i, error := some "오디오를 불러올 수 없습니다" }
      else s

/-- Running a sequence of fetch-effect events from the initial state. -/
def playerRun (events : List PlayerEvent) : PlayerFetchState :=
  events.foldl playerStep playerInit

/-- The ordering guarantee claimed by the spec: a pending fetch for track `a`
that resolves while a different track `b` is current never binds its URL as
the stream URL. -/
def StaleFetchDiscarded : Prop :=
  ∀ (events : List PlayerEvent) (a b url : String),
    a ∈ (playerRun events).pending →
    (playerRun events).audioId = some b →
    a ≠ b →
    (playerStep (playerRun events) (PlayerEvent.resolveFetch a url)).streamUrl ≠ some url

/-! The YouTube resolver session (`src/lib/youtube.ts`) and the audio
info / stream API routes. Innertube instances are identified by numbers; the
module-level `innertubeInstance` cache together with the supply of fresh
instances forms the state. -/

/-- Module state of `src/lib/youtube.ts`: the cached `innertubeInstance`
(`none` when not yet created or cleared) plus the id the next
`Innertube.create()` would return. -/
structure YtState where
  innertubeInstance : Option Nat
  freshId : Nat
deriving DecidableEq, Repr

/-- `getInnertube()`: returns the cached instance when present, otherwise
creates a fresh one and caches it. -/
def getInnertube (s : YtState) : Nat × YtState :=
  match s.innertubeInstance with
  | some it => (it, s)
  | none => (s.freshId, { innertubeInstance := some s.freshId, freshId := s.freshId + 1 })

/-- Modelled from the spec: `clearInnertubeCache` is imported by the audio
info route from `@/lib/youtube` but its definition is not among the provided
sources; the spec says a failed metadata fetch is retried "with a
freshly-initialized resolver session", so clearing resets the cached
instance and the next `getInnertube` creates a fresh one. -/
def clearInnertubeCache (s : YtState) : YtState :=
  { s with innertubeInstance := none }

/-- Sanity bound on the youtube module state: a cached instance was created
earlier than the next fresh id. Holds for the module's start state and is
preserved by `getInnertube` / `clearInnertubeCache`. -/
def YtState.Bounded (s : YtState) : Prop :=
  ∀ i, s.innertubeInstance = some i → i < s.freshId

/-- HTTP-level outcome of a route: a payload or an error status with a
message. -/
inductive ApiResult (α : Type) where
  | ok (value : α)
  | error (status : Nat) (message : String)
deriving DecidableEq, Repr

/-- Result of running a route handler: the response, the resulting youtube
module state, and the list of `(instance, id)` resolver calls it made. -/
structure RouteOutcome (α : Type) where
  response : ApiResult α
  state : YtState
  calls : List (Nat × String)
deriving DecidableEq, Repr

/-- GET handler of the audio info route: missing `id` is a 400; otherwise
`innertube.getInfo(id)` is attempted, on failure the cache is cleared and the
call retried once with a fresh instance; a second failure surfaces as a 500.
The behaviour of `getInfo` is passed in as a function of instance and id. -/
def audioInfoGET (getInfo : Nat → String → Except String AudioInfo)
    (id : Option String) (s : YtState) : RouteOutcome AudioInfo :=
  match id with
  | none => ⟨ApiResult.error 400 "Audio ID parameter \x22id\x22 is required", s, []⟩
  | some vid =>
      let r1 := getInnertube s
      match getInfo r1.1 vid with
      | Except.ok info => ⟨ApiResult.ok info, r1.2, [(r1.1, vid)]⟩
      | Except.error _ =>
          let r2 := getInnertube (clearInnertubeCache r1.2)
          match getInfo r2.1 vid with
          | Except.ok info => ⟨ApiResult.ok info, r2.2, [(r1.1, vid), (r2.1, vid)]⟩
          | Except.error e => ⟨ApiResult.error 500 e, r2.2, [(r1.1, vid), (r2.1, vid)]⟩

/-- GET handler of the audio stream route: missing `id` is a 400; otherwise
`innertube.getStreamingData(id)` is attempted exactly once; absent streaming
data or URL is a 404, a thrown failure is a 500 — no retry. `getStreaming`
returns `some url`, `none` (no usable streaming data), or a failure. -/
def audioStreamGET (getStreaming : Nat → String → Except String (Option String))
    (id : Option String) (s : YtState) : RouteOutcome String :=
  match id with
  | none => ⟨ApiResult.error 400 "Audio ID parameter \x22id\x22 is required", s, []⟩
  | some vid =>
      let r1 := getInnertube s
      match getStreaming r1.1 vid with
      | Except.ok (some url) => ⟨ApiResult.ok url, r1.2, [(r1.1, vid)]⟩
      | Except.ok none => ⟨ApiResult.error 404 "No streaming data available", r1.2, [(r1.1, vid)]⟩
      | Except.error e => ⟨ApiResult.error 500 e, r1.2, [(r1.1, vid)]⟩

/-! Concrete sample data used by witnesses and counterexamples. -/

/-- A sample track. -/
def trackA : Audio :=
  { id := "A", title := "Track A", description := "", duration := 100, viewCount := 0,
    published := none, thumbnail := "", channel := { id := none, name := "", thumbnail := none } }

/-- A second sample track, distinct from `trackA`. -/
def trackB : Audio :=
  { id := "B", title := "Track B", description := "", duration := 200, viewCount := 0,
    published := none, thumbnail := "", channel := { id := none, name := "", thumbnail := none } }

/-- Fetched metadata resolving to `trackA`. -/
def infoA : AudioInfo :=
  { id := "A", title := "Track A", description := some "", duration := some 100,
    viewCount := some 0, published := none, thumbnail := "", channel := none }

/-! Claim theorems. -/

/-- Claim C2, counterexample: from status Idle, `togglePlay` is not a no-op —
it sets status to Playing. -/
theorem togglePlay_idle_counterexample :
    initialState.status = AudioStatus.idle ∧
    (togglePlay initialState).status = AudioStatus.playing ∧
    AudioStatus.playing ≠ AudioStatus.idle := by
  refine ⟨rfl, rfl, by decide⟩

/-- Claim C2 (amended): `togglePlay` sends Playing to Paused and every other
status (Paused, Idle, Loading, Ready, Error) to Playing, leaving all other
state unchanged. -/
theorem togglePlay_spec (s : AudioState) :
    (togglePlay s).status =
      (if s.status = AudioStatus.playing then AudioStatus.paused else AudioStatus.playing) ∧
    (togglePlay s).audio = s.audio ∧
    (togglePlay s).playback = s.playback ∧
    (togglePlay s).showFullPlayer = s.showFullPlayer ∧
    (togglePlay s).repeatMode = s.repeatMode ∧
    (togglePlay s).shuffle = s.shuffle ∧
    (togglePlay s).liked = s.liked ∧
    (togglePlay s).queue = s.queue ∧
    (togglePlay s).currentIndex = s.currentIndex :=
  ⟨rfl, rfl, rfl, rfl, rfl, rfl, rfl, rfl, rfl⟩

/-- Claim C3, counterexample: `updatePlaybackSpeed` does not clamp —
`setSpeed(3.0)` yields speed 3, not `min (max 3 0.5) 2 = 2`, and
`setSpeed(0.1)` yields 0.1, not 0.5. -/
theorem updatePlaybackSpeed_no_clamp :
    (updatePlaybackSpeed 3 initialState).playback.speed = 3 ∧
    min (max (3 : Rat) (1 / 2)) 2 = 2 ∧ (3 : Rat) ≠ 2 ∧
    (updatePlaybackSpeed (1 / 10) initialState).playback.speed = 1 / 10 ∧
    min (max ((1 : Rat) / 10) (1 / 2)) 2 = 1 / 2 ∧ (1 : Rat) / 10 ≠ 1 / 2 := by
  refine ⟨rfl, by norm_num, by norm_num, rfl, ?_, by norm_num⟩
  rw [max_eq_right (by norm_num), min_eq_left (by norm_num)]

/-- Claim C3 (amended): `updatePlaybackSpeed` stores the given value into
`playback.speed` unchanged (no clamping), leaving everything else as it was. -/
theorem updatePlaybackSpeed_spec (sp : Rat) (s : AudioState) :
    (updatePlaybackSpeed sp s).playback.speed = sp ∧
    (updatePlaybackSpeed sp s).playback.currentTime = s.playback.currentTime ∧
    (updatePlaybackSpeed sp s).playback.duration = s.playback.duration ∧
    (updatePlaybackSpeed sp s).audio = s.audio ∧
    (updatePlaybackSpeed sp s).status = s.status ∧
    (updatePlaybackSpeed sp s).queue = s.queue ∧
    (updatePlaybackSpeed sp s).currentIndex = s.currentIndex :=
  ⟨rfl, rfl, rfl, rfl, rfl, rfl, rfl⟩

/-- Claim C4, counterexample: from a state whose active queue slot holds a
different track (`currentIndex = 0`, slot holds `trackB`, resolved track is
`trackA`), a successful `setAudio` leaves `currentIndex` at 0 instead of
setting it to -1. -/
theorem setAudio_currentIndex_counterexample :
    (setAudio (Except.ok infoA)
        { initialState with queue := [trackB], currentIndex := 0, audio := some trackB }
      ).currentIndex = 0 ∧
    listGet [trackB] 0 = some trackB ∧
    newAudioOfInfo infoA ≠ trackB ∧
    (0 : Int) ≠ -1 := by
  refine ⟨rfl, by decide, by decide, by decide⟩

/-- Claim C4 (amended): on successful metadata resolution `setAudio` replaces
the current track with the resolved metadata and sets status to Playing; it
does not mutate the queue and leaves `currentIndex` unchanged (it is never
reset to -1). -/
theorem setAudio_success_spec (d : AudioInfo) (s : AudioState) :
    (setAudio (Except.ok d) s).audio = some (newAudioOfInfo d) ∧
    (setAudio (Except.ok d) s).status = AudioStatus.playing ∧
    (setAudio (Except.ok d) s).queue = s.queue ∧
    (setAudio (Except.ok d) s).currentIndex = s.currentIndex ∧
    (setAudio (Except.ok d) s).playback = s.playback ∧
    (setAudio (Except.ok d) s).repeatMode = s.repeatMode ∧
    (setAudio (Except.ok d) s).shuffle = s.shuffle ∧
    (setAudio (Except.ok d) s).liked = s.liked :=
  ⟨rfl, rfl, rfl, rfl, rfl, rfl, rfl, rfl⟩

/-- Claim C5, counterexample: `clearQueue` from a Playing state leaves the
status at Playing — it does not reset the session status to Idle. -/
theorem clearQueue_status_counterexample :
    (clearQueue { initialState with status := AudioStatus.playing }).status =
      AudioStatus.playing ∧
    AudioStatus.playing ≠ AudioStatus.idle := by
  refine ⟨rfl, by decide⟩

/-- Claim C5 (amended): `clearQueue` empties the queue, resets `currentIndex`
to -1 and clears the current track, but leaves the status (and playback)
unchanged — Idle is not forced (that is `clearAudio`); a subsequent
`playNext` keeps the current track null and changes nothing. -/
theorem clearQueue_spec (r : Nat) (s : AudioState) :
    (clearQueue s).queue = [] ∧
    (clearQueue s).currentIndex = -1 ∧
    (clearQueue s).audio = none ∧
    (clearQueue s).status = s.status ∧
    (clearQueue s).playback = s.playback ∧
    (playNext r (clearQueue s)).audio = none ∧
    playNext r (clearQueue s) = clearQueue s :=
  ⟨rfl, rfl, rfl, rfl, rfl, rfl, rfl⟩

/-- Claim C9: when `playback.currentTime > 3`, `playPrevious` resets the time
to 0 and changes nothing else, whatever the repeat mode, shuffle flag or
queue. -/
theorem playPrevious_restart_spec (r : Nat) (s : AudioState)
    (h : 3 < s.playback.currentTime) :
    (playPrevious r s).playback.currentTime = 0 ∧
    (playPrevious r s).playback.duration = s.playback.duration ∧
    (playPrevious r s).playback.speed = s.playback.speed ∧
    (playPrevious r s).currentIndex = s.currentIndex ∧
    (playPrevious r s).queue = s.queue ∧
    (playPrevious r s).audio = s.audio ∧
    (playPrevious r s).status = s.status ∧
    (playPrevious r s).repeatMode = s.repeatMode ∧
    (playPrevious r s).shuffle = s.shuffle ∧
    (playPrevious r s).liked = s.liked ∧
    (playPrevious r s).showFullPlayer = s.showFullPlayer := by
  have hdef : playPrevious r s = { s with playback := { s.playback with currentTime := 0 } } := by
    unfold playPrevious
    rw [if_pos h]
  rw [hdef]
  exact ⟨rfl, rfl, rfl, rfl, rfl, rfl, rfl, rfl, rfl, rfl, rfl⟩

/-- Witness state for C9: current time 5 seconds. -/
def stateAtFive : AudioState :=
  { initialState with playback := { currentTime := 5, duration := 0, speed := 1 } }

/-- Witness for C9 at currentTime = 5. -/
theorem playPrevious_restart_spec_witness :
    3 < stateAtFive.playback.currentTime ∧
    (playPrevious 0 stateAtFive).playback.currentTime = 0 ∧
    (playPrevious 0 stateAtFive).currentIndex = stateAtFive.currentIndex :=
  ⟨by norm_num [stateAtFive],
   (playPrevious_restart_spec 0 stateAtFive (by norm_num [stateAtFive])).1,
   (playPrevious_restart_spec 0 stateAtFive (by norm_num [stateAtFive])).2.2.2.1⟩

/-- Claim C1, counterexample: the fetch effect has no stale-completion guard.
In the interleaving "track A becomes current, track B becomes current, the
pending fetch for A resolves", the resolved locator of A is bound as the
stream URL of the session even though B is the current track. -/
theorem staleFetch_counterexample : ¬ StaleFetchDiscarded := by
  intro h
  exact h [PlayerEvent.changeTrack (some "A"), PlayerEvent.changeTrack (some "B")]
    "A" "B" "locatorA" (by decide) (by decide) (by decide) (by decide)

/-- Claim C1 (amended): the completion of a pending stream-locator fetch is
never discarded — when the fetch for track `a` resolves, its URL is bound as
the stream URL unconditionally, even when a different track is current by
then (last completion wins), and the current track itself is untouched. -/
theorem resolveFetch_always_binds (s : PlayerFetchState) (a url : String)
    (h : a ∈ s.pending) :
    (playerStep s (PlayerEvent.resolveFetch a url)).streamUrl = some url ∧
    (playerStep s (PlayerEvent.resolveFetch a url)).audioId = s.audioId := by
  simp [playerStep, h]

/-- Witness for C1 (amended): resolving the pending fetch for "A" after "B"
became current binds A's locator. -/
theorem resolveFetch_always_binds_witness :
    ("A" ∈ (playerRun [PlayerEvent.changeTrack (some "A"),
        PlayerEvent.changeTrack (some "B")]).pending) ∧
    (playerStep (playerRun [PlayerEvent.changeTrack (some "A"),
        PlayerEvent.changeTrack (some "B")])
      (PlayerEvent.resolveFetch "A" "locatorA")).streamUrl = some "locatorA" :=
  ⟨by decide,
   (resolveFetch_always_binds _ "A" "locatorA" (by decide)).1⟩

/-- Claim C6: when the first `getInfo` attempt of the audio info route fails,
the route makes exactly one retry — a second `getInfo` call on a freshly
created Innertube instance obtained after clearing the cache (a different
instance than the first) — and only then surfaces the outcome; the audio
stream route makes exactly one `getStreamingData` call and surfaces its
failure immediately as a 500, with no retry. -/
theorem metadata_retry_once_stream_no_retry
    (getInfo : Nat → String → Except String AudioInfo)
    (getStreaming : Nat → String → Except String (Option String))
    (s t : YtState) (vid wid e f : String)
    (hb : s.Bounded)
    (hfail : getInfo (getInnertube s).1 vid = Except.error e)
    (hsfail : getStreaming (getInnertube t).1 wid = Except.error f) :
    (audioInfoGET getInfo (some vid) s).calls.length = 2 ∧
    (audioInfoGET getInfo (some vid) s).calls.get? 0 = some ((getInnertube s).1, vid) ∧
    (audioInfoGET getInfo (some vid) s).calls.get? 1 =
      some ((getInnertube (clearInnertubeCache (getInnertube s).2)).1, vid) ∧
    (getInnertube (clearInnertubeCache (getInnertube s).2)).1 ≠ (getInnertube s).1 ∧
    (getInnertube (clearInnertubeCache (getInnertube s).2)).2.innertubeInstance =
      some (getInnertube (clearInnertubeCache (getInnertube s).2)).1 ∧
    ((audioInfoGET getInfo (some vid) s).response =
      match getInfo (getInnertube (clearInnertubeCache (getInnertube s).2)).1 vid with
      | Except.ok info => ApiResult.ok info
      | Except.error e2 => ApiResult.error 500 e2) ∧
    (audioStreamGET getStreaming (some wid) t).calls = [((getInnertube t).1, wid)] ∧
    (audioStreamGET getStreaming (some wid) t).response = ApiResult.error 500 f := by
  have hne : (getInnertube (clearInnertubeCache (getInnertube s).2)).1 ≠ (getInnertube s).1 := by
    cases hcase : s.innertubeInstance with
    | some i =>
        have hlt := hb i hcase
        simp [getInnertube, clearInnertubeCache, hcase]
        omega
    | none =>
        simp [getInnertube, clearInnertubeCache, hcase]
  have hinfo : audioInfoGET getInfo (some vid) s =
      (match getInfo (getInnertube (clearInnertubeCache (getInnertube s).2)).1 vid with
        | Except.ok info =>
            ⟨ApiResult.ok info, (getInnertube (clearInnertubeCache (getInnertube s).2)).2,
              [((getInnertube s).1, vid),
               ((getInnertube (clearInnertubeCache (getInnertube s).2)).1, vid)]⟩
        | Except.error e2 =>
            ⟨ApiResult.error 500 e2, (getInnertube (clearInnertubeCache (getInnertube s).2)).2,
              [((getInnertube s).1, vid),
               ((getInnertube (clearInnertubeCache (getInnertube s).2)).1, vid)]⟩) := by
    unfold audioInfoGET
    dsimp only
    rw [hfail]
  have hstream : audioStreamGET getStreaming (some wid) t =
      ⟨ApiResult.error 500 f, (getInnertube t).2, [((getInnertube t).1, wid)]⟩ := by
    unfold audioStreamGET
    dsimp only
    rw [hsfail]
  refine ⟨?_, ?_, ?_, hne, ?_, ?_, ?_, ?_⟩
  · rw [hinfo]; cases getInfo (getInnertube (clearInnertubeCache (getInnertube s).2)).1 vid <;> rfl
  · rw [hinfo]; cases getInfo (getInnertube (clearInnertubeCache (getInnertube s).2)).1 vid <;> rfl
  · rw [hinfo]; cases getInfo (getInnertube (clearInnertubeCache (getInnertube s).2)).1 vid <;> rfl
  · simp [getInnertube, clearInnertubeCache]
  · rw [hinfo]; cases getInfo (getInnertube (clearInnertubeCache (getInnertube s).2)).1 vid <;> rfl
  · rw [hstream]
  · rw [hstream]

/-- Witness for C6: a resolver that always fails makes the info route perform
exactly two attempts and the stream route exactly one. -/
theorem metadata_retry_once_stream_no_retry_witness :
    YtState.Bounded ⟨none, 0⟩ ∧
    ((fun _ _ => Except.error "boom" : Nat → String → Except String AudioInfo)
      (getInnertube ⟨none, 0⟩).1 "vid" = Except.error "boom") ∧
    ((fun _ _ => Except.error "down" : Nat → String → Except String (Option String))
      (getInnertube ⟨none, 0⟩).1 "wid" = Except.error "down") ∧
    (audioInfoGET (fun _ _ => Except.error "boom") (some "vid") ⟨none, 0⟩).calls.length = 2 ∧
    (audioStreamGET (fun _ _ => Except.error "down") (some "wid") ⟨none, 0⟩).calls =
      [((getInnertube ⟨none, 0⟩).1, "wid")] :=
  by
  have hb : YtState.Bounded ⟨none, 0⟩ := fun i hi => nomatch hi
  have hmain := metadata_retry_once_stream_no_retry (fun _ _ => Except.error "boom")
    (fun _ _ => Except.error "down") ⟨none, 0⟩ ⟨none, 0⟩ "vid" "wid" "boom" "down" hb rfl rfl
  exact ⟨hb, rfl, rfl, hmain.1, hmain.2.2.2.2.2.2.1⟩

/-- Every store action keeps an empty queue empty and the cursor at -1. -/
theorem applyAction_keeps_queue_empty (s : AudioState) (a : StoreAction)
    (h1 : s.queue = []) (h2 : s.currentIndex = -1) :
    (applyAction s a).queue = [] ∧ (applyAction s a).currentIndex = -1 := by
  cases a with
  | setAudio r => cases r <;> simp [applyAction, setAudio, h1, h2]
  | clearAudio => simp [applyAction, clearAudio, h1, h2]
  | setStatus st => simp [applyAction, setStatus, h1, h2]
  | togglePlay => simp [applyAction, togglePlay, h1, h2]
  | setShowFullPlayer b => simp [applyAction, setShowFullPlayer, h1, h2]
  | updatePlaybackTime t => simp [applyAction, updatePlaybackTime, h1, h2]
  | updatePlaybackDuration d => simp [applyAction, updatePlaybackDuration, h1, h2]
  | updatePlaybackSpeed sp => simp [applyAction, updatePlaybackSpeed, h1, h2]
  | toggleRepeatMode => simp [applyAction, toggleRepeatMode, h1, h2]
  | toggleShuffle => simp [applyAction, toggleShuffle, h1, h2]
  | toggleLike => simp [applyAction, toggleLike, h1, h2]
  | playNext rand => simp [applyAction, playNext, h1, h2]
  | playPrevious rand =>
      by_cases hc : 3 < s.playback.currentTime <;>
        simp [applyAction, playPrevious, h1, h2, hc]
  | clearQueue => simp [applyAction, clearQueue]

/-- Folding store actions from a state with an empty queue keeps the queue
empty and the cursor at -1. -/
theorem foldl_keeps_queue_empty (acts : List StoreAction) :
    ∀ s : AudioState, s.queue = [] → s.currentIndex = -1 →
      (acts.foldl applyAction s).queue = [] ∧
      (acts.foldl applyAction s).currentIndex = -1 := by
  induction acts with
  | nil => intro s h1 h2; exact ⟨h1, h2⟩
  | cons a rest ih =>
      intro s h1 h2
      have h := applyAction_keeps_queue_empty s a h1 h2
      exact ih (applyAction s a) h.1 h.2

/-- Claim C10: no exposed store operation adds to the queue — every state
reachable from the initial state through sequences of store actions has an
empty queue and `currentIndex = -1`. -/
theorem store_queue_always_empty (acts : List StoreAction) :
    (runActions acts).queue = [] ∧ (runActions acts).currentIndex = -1 :=
  foldl_keeps_queue_empty acts initialState rfl rfl

/-- With shuffle off and room before the end of the queue, `playNext`
advances the cursor by one and loads that slot. -/
theorem playNext_mid (r : Nat) (s : AudioState) (h1 : s.shuffle = false)
    (h3 : s.queue ≠ []) (h2 : s.currentIndex + 1 < (s.queue.length : Int)) :
    playNext r s = { s with currentIndex := s.currentIndex + 1,
                            audio := listGet s.queue (s.currentIndex + 1) } := by
  have hlen : ¬ s.queue.length = 0 := by
    simpa using h3
  have hnot : ¬ ((s.queue.length : Int) ≤ s.currentIndex + 1) := not_le.mpr h2
  have hne : ¬ (s.currentIndex + 1 = s.currentIndex) := by omega
  simp [playNext, playNextIndex, hlen, h1, hnot, hne]

/-- With shuffle off, repeat ALL and the cursor at (or past) the last slot,
`playNext` lands on index 0 and preserves the queue and the mode flags. -/
theorem playNext_wrap (r : Nat) (s : AudioState) (h1 : s.shuffle = false)
    (h3 : s.queue ≠ []) (h2 : (s.queue.length : Int) ≤ s.currentIndex + 1)
    (h4 : s.repeatMode = RepeatMode.all) :
    (playNext r s).currentIndex = 0 ∧ (playNext r s).queue = s.queue ∧
    (playNext r s).shuffle = false ∧ (playNext r s).repeatMode = RepeatMode.all := by
  have hlen : ¬ s.queue.length = 0 := by
    simpa using h3
  by_cases hz : (0 : Int) = s.currentIndex
  · simp [playNext, playNextIndex, hlen, h1, h2, h4, hz]
  · simp [playNext, playNextIndex, hlen, h1, h2, h4, hz]

/-- With shuffle off, repeat not ALL and the cursor at (or past) the last
slot, `playNext` is the identity. -/
theorem playNext_stopEnd (r : Nat) (s : AudioState) (h1 : s.shuffle = false)
    (h3 : s.queue ≠ []) (h2 : (s.queue.length : Int) ≤ s.currentIndex + 1)
    (h4 : ¬ s.repeatMode = RepeatMode.all) :
    playNext r s = s := by
  have hlen : ¬ s.queue.length = 0 := by
    simpa using h3
  simp [playNext, playNextIndex, hlen, h1, h2, h4]

/-- Under repeat ALL with shuffle off, iterating `playNext` as many times as
remain to the end of the queue (inclusive of the wrap) lands on index 0. -/
theorem iterateNext_all_aux (d : Nat) :
    ∀ s : AudioState, s.shuffle = false → s.repeatMode = RepeatMode.all →
      s.queue ≠ [] → 0 ≤ s.currentIndex →
      s.currentIndex.toNat + d = s.queue.length →
      s.currentIndex < (s.queue.length : Int) →
      (iterateNext 0 d s).currentIndex = 0 := by
  induction d with
  | zero =>
      intro s h1 h2 h3 h4 h5 h6
      omega
  | succ d ih =>
      intro s h1 h2 h3 h4 h5 h6
      by_cases hlt : s.currentIndex + 1 < (s.queue.length : Int)
      · have hmid := playNext_mid 0 s h1 h3 hlt
        show (iterateNext 0 d (playNext 0 s)).currentIndex = 0
        rw [hmid]
        refine ih _ h1 h2 h3 ?_ ?_ ?_
        · show 0 ≤ s.currentIndex + 1
          omega
        · show (s.currentIndex + 1).toNat + d = s.queue.length
          omega
        · exact hlt
      · have hd : d = 0 := by omega
        subst hd
        show (playNext 0 s).currentIndex = 0
        exact (playNext_wrap 0 s h1 h3 (by omega) h2).1

/-- Claim C7: for every non-empty queue with repeat ALL and shuffle off,
starting at index 0, calling `playNext` exactly `queue.length` times returns
the cursor to index 0. -/
theorem playNext_repeatAll_cycle (s : AudioState) (h3 : s.queue ≠ [])
    (h2 : s.repeatMode = RepeatMode.all) (h1 : s.shuffle = false)
    (h0 : s.currentIndex = 0) :
    (iterateNext 0 s.queue.length s).currentIndex = 0 := by
  have hlen : 0 < s.queue.length := List.length_pos.mpr h3
  refine iterateNext_all_aux s.queue.length s h1 h2 h3 ?_ ?_ ?_
  · omega
  · omega
  · rw [h0]; exact_mod_cast hlen

/-- Witness state for C7 and C8: a two-track queue with the cursor on the
first track. -/
def twoTrackState : AudioState :=
  { initialState with queue := [trackA, trackB], currentIndex := 0 }

/-- Witness for C7 on a concrete two-track queue under repeat ALL. -/
theorem playNext_repeatAll_cycle_witness :
    ({ twoTrackState with repeatMode := RepeatMode.all } : AudioState).queue ≠ [] ∧
    (iterateNext 0 ({ twoTrackState with repeatMode := RepeatMode.all } : AudioState).queue.length
      { twoTrackState with repeatMode := RepeatMode.all }).currentIndex = 0 :=
  ⟨by decide,
   playNext_repeatAll_cycle { twoTrackState with repeatMode := RepeatMode.all }
     (by decide) rfl rfl rfl⟩

/-- Under repeat OFF with shuffle off, iterating `playNext` as many times as
remain before the last slot lands on the last index, preserving the queue
and the mode flags. -/
theorem iterateNext_off_aux (d : Nat) :
    ∀ s : AudioState, s.shuffle = false → s.repeatMode = RepeatMode.off →
      s.queue ≠ [] → 0 ≤ s.currentIndex →
      s.currentIndex.toNat + d + 1 = s.queue.length →
      (iterateNext 0 d s).currentIndex = (s.queue.length : Int) - 1 ∧
      (iterateNext 0 d s).queue = s.queue ∧
      (iterateNext 0 d s).shuffle = false ∧
      (iterateNext 0 d s).repeatMode = RepeatMode.off := by
  induction d with
  | zero =>
      intro s h1 h2 h3 h4 h5
      refine ⟨?_, rfl, h1, h2⟩
      show s.currentIndex = (s.queue.length : Int) - 1
      omega
  | succ d ih =>
      intro s h1 h2 h3 h4 h5
      have hlt : s.currentIndex + 1 < (s.queue.length : Int) := by omega
      have hmid := playNext_mid 0 s h1 h3 hlt
      show (iterateNext 0 d (playNext 0 s)).currentIndex = (s.queue.length : Int) - 1 ∧
        (iterateNext 0 d (playNext 0 s)).queue = s.queue ∧
        (iterateNext 0 d (playNext 0 s)).shuffle = false ∧
        (iterateNext 0 d (playNext 0 s)).repeatMode = RepeatMode.off
      rw [hmid]
      refine ih _ h1 h2 h3 ?_ ?_
      · show 0 ≤ s.currentIndex + 1
        omega
      · show (s.currentIndex + 1).toNat + d + 1 = s.queue.length
        omega

/-- Claim C8: for every non-empty queue with repeat OFF and shuffle off,
from any valid index, iterating `playNext` reaches index `queue.length - 1`
after `queue.length - 1 - currentIndex` calls, and every further `playNext`
(whatever its random input) leaves the entire state unchanged. -/
theorem playNext_repeatOff_reaches_end (r : Nat) (s : AudioState)
    (h3 : s.queue ≠ []) (h2 : s.repeatMode = RepeatMode.off)
    (h1 : s.shuffle = false) (h4 : 0 ≤ s.currentIndex)
    (h5 : s.currentIndex < (s.queue.length : Int)) :
    (iterateNext 0 (s.queue.length - 1 - s.currentIndex.toNat) s).currentIndex =
      (s.queue.length : Int) - 1 ∧
    playNext r (iterateNext 0 (s.queue.length - 1 - s.currentIndex.toNat) s) =
      iterateNext 0 (s.queue.length - 1 - s.currentIndex.toNat) s := by
  have hlen : 0 < s.queue.length := List.length_pos.mpr h3
  have haux := iterateNext_off_aux (s.queue.length - 1 - s.currentIndex.toNat) s
    h1 h2 h3 h4 (by omega)
  refine ⟨haux.1, ?_⟩
  refine playNext_stopEnd r _ haux.2.2.1 ?_ ?_ ?_
  · rw [haux.2.1]; exact h3
  · rw [haux.2.1, haux.1]; omega
  · rw [haux.2.2.2]; decide

/-- Witness for C8 on a concrete two-track queue under repeat OFF. -/
theorem playNext_repeatOff_reaches_end_witness :
    twoTrackState.queue ≠ [] ∧ 0 ≤ twoTrackState.currentIndex ∧
    twoTrackState.currentIndex < (twoTrackState.queue.length : Int) ∧
    ((iterateNext 0 (twoTrackState.queue.length - 1 - twoTrackState.currentIndex.toNat)
        twoTrackState).currentIndex = (twoTrackState.queue.length : Int) - 1 ∧
      playNext 7 (iterateNext 0
          (twoTrackState.queue.length - 1 - twoTrackState.currentIndex.toNat) twoTrackState) =
        iterateNext 0
          (twoTrackState.queue.length - 1 - twoTrackState.currentIndex.toNat) twoTrackState) :=
  ⟨by decide, by decide, by decide,
   playNext_repeatOff_reaches_end 7 twoTrackState (by decide) rfl rfl
     (by decide) (by decide)⟩

end Song
